import Mathlib

/-!
Verification of the css-mcp-server repository (TypeScript sources under
`src/src/`). The embedding models:

* the parsed JSON values that `JSON.parse` produces and `JSON.stringify`
  consumes (`Json`);
* the zod `MemorySchema` of `src/src/resources/index.ts` and the persisted
  knowledge document (`MemoryData`);
* the store operations `readMemory` / `writeMemory`
  (`src/src/resources/index.ts`, lines 23-47);
* the three tool handlers of `src/src/tools/index.ts`
  (`read_from_memory`, `write_to_memory`, `get_latest_updates`) and the
  `css_knowledge_memory` resource handler;
* tool registration (`registerTools`) and its dependence on the
  `OPENROUTER_API_KEY` configuration value.

The backing store is modelled at the level of its parsed JSON content: the
state threaded through the handlers is the `Json` value currently persisted
in `data/memory.json`.  Handlers are state transformers
`Json → Except Err α × Json`: the second component is the store content
after the invocation, so "no write happened" is the literal statement that
this component equals the input store.  The TypeScript code signals
failures by throwing `Error` values with distinct messages from distinct
program points; the error enumerations below name those throw sites with
the specification's taxonomy (each constructor corresponds to exactly one
throw site / framework behaviour, documented next to it).
-/

namespace CssMcp

/-- JSON values, as produced by `JSON.parse` and consumed by
`JSON.stringify`.  Objects are finite lists of key/value pairs in
insertion order; `JSON.parse` never yields duplicate keys. -/
inductive Json where
  | null : Json
  | bool : Bool → Json
  | num : Int → Json
  | str : String → Json
  | arr : List Json → Json
  | obj : List (String × Json) → Json

/-- Field access on a JSON object's key/value list (JS property lookup). -/
def lookupField : List (String × Json) → String → Option Json
  | [], _ => none
  | (k, v) :: rest, key => if k = key then some v else lookupField rest key

/-- The persisted knowledge document, as typed by the zod schema
`MemorySchema` in `src/src/resources/index.ts` (lines 14-17):
`user_id` a string, `known_concepts` a record mapping concept names to
booleans.  The record is modelled as a key/value list in insertion order,
matching the enumeration order of a JS object. -/
structure MemoryData where
  user_id : String
  known_concepts : List (String × Bool)
deriving Repr, DecidableEq

/-- Store-level failures.  The code throws generic `Error`s; the
constructors name the two distinct throw sites of
`src/src/resources/index.ts` with the specification's taxonomy. -/
inductive MemErr where
  | corruptState : MemErr
  | invalidDocument : MemErr
deriving Repr, DecidableEq

/-- `z.record(z.string(), z.boolean())` applied to the key/value list of a
JSON object: succeeds iff every value is a boolean. -/
def parseKnownConcepts : List (String × Json) → Option (List (String × Bool))
  | [] => some []
  | (k, Json.bool b) :: rest => (parseKnownConcepts rest).map (fun l => (k, b) :: l)
  | _ => none

/-- `MemorySchema.parse` (zod): the input must be a JSON object with a
string field `user_id` and an object field `known_concepts` whose values
are all booleans.  Unknown extra fields are stripped (zod object default);
no constraint beyond the types is checked — in particular `z.string()`
accepts the empty string. -/
def MemorySchemaParse (j : Json) : Option MemoryData :=
  match j with
  | Json.obj fields =>
    match lookupField fields "user_id", lookupField fields "known_concepts" with
    | some (Json.str uid), some (Json.obj kcs) =>
      (parseKnownConcepts kcs).map (fun kc => MemoryData.mk uid kc)
    | _, _ => none
  | _ => none

/-- `readMemory` (`src/src/resources/index.ts`, lines 23-34): parse the
stored record against `MemorySchema`; a validation failure is rethrown
(`CorruptState` in the specification's taxonomy).  The function performs
no write: it is not a state transformer, only an observation of the
store. -/
def readMemory (store : Json) : Except MemErr MemoryData :=
  match MemorySchemaParse store with
  | some m => Except.ok m
  | none => Except.error MemErr.corruptState

/-- `writeMemory` (`src/src/resources/index.ts`, lines 37-47):
`MemorySchema.parse(newData)` runs before `fs.writeFile`; a validation
failure throws (`InvalidDocument`) with the file untouched, and on success
the file is replaced with the serialization of `newData` itself (the
original argument, not the parse result).  The result is the store content
after the call; the error case reaches no write, which call sites record
by keeping their input store. -/
def writeMemory (newData : Json) (_store : Json) : Except MemErr Json :=
  match MemorySchemaParse newData with
  | some _ => Except.ok newData
  | none => Except.error MemErr.invalidDocument

/-- `JSON.stringify` escaping of a single character inside a string
literal: quote, backslash and the named control characters get two-character
escapes, all other control characters below 0x20 get a `\u00XX` escape, and
everything else is emitted literally. -/
def escapeChar (c : Char) : String :=
  if c = '"' then "\\\""
  else if c = '\\' then "\\\\"
  else if c = (Char.ofNat 8) then "\\b"
  else if c = (Char.ofNat 9) then "\\t"
  else if c = (Char.ofNat 10) then "\\n"
  else if c = (Char.ofNat 12) then "\\f"
  else if c = (Char.ofNat 13) then "\\r"
  else if c.toNat < 32 then
    let hexDigit : Nat → String := fun n =>
      String.singleton (if n < 10 then Char.ofNat (48 + n) else Char.ofNat (87 + n))
    "\\u00" ++ hexDigit (c.toNat / 16) ++ hexDigit (c.toNat % 16)
  else String.singleton c

/-- `JSON.stringify` rendering of a string value, quotes included. -/
def quoteString (s : String) : String :=
  "\"" ++ String.join (s.toList.map escapeChar) ++ "\""

/-- The JSON rendering of a boolean. -/
def boolLit (b : Bool) : String := if b then "true" else "false"

/-- `JSON.stringify(kc)` — compact rendering of the `known_concepts`
record: no whitespace, fields in insertion order. -/
def stringifyConceptsCompact (l : List (String × Bool)) : String :=
  "\x7b" ++ String.intercalate ","
      (l.map (fun p => quoteString p.1 ++ ":" ++ boolLit p.2)) ++ "\x7d"

/-- `JSON.stringify(memoryData)` — the compact serialization of a
knowledge document, as emitted by the `css_knowledge_memory` resource
handler (`src/src/resources/index.ts`, line 76). -/
def stringifyMemoryCompact (m : MemoryData) : String :=
  "\x7b" ++ quoteString "user_id" ++ ":" ++ quoteString m.user_id ++ ","
    ++ quoteString "known_concepts" ++ ":"
    ++ stringifyConceptsCompact m.known_concepts ++ "\x7d"

/-- `JSON.stringify(kc, null, 2)` rendering of the nested
`known_concepts` record at depth 1: the empty record prints as `\x7b\x7d`,
otherwise each field sits on its own line indented by four spaces and the
closing brace is indented by two. -/
def stringifyConceptsPretty (l : List (String × Bool)) : String :=
  match l with
  | [] => "\x7b\x7d"
  | _ => "\x7b\n" ++ String.intercalate ",\n"
      (l.map (fun p => "    " ++ quoteString p.1 ++ ": " ++ boolLit p.2))
      ++ "\n  \x7d"

/-- `JSON.stringify(memoryData, null, 2)` — the two-space-indented
serialization of a knowledge document, as emitted by the
`read_from_memory` tool handler (`src/src/tools/index.ts`, line 24). -/
def stringifyMemoryPretty (m : MemoryData) : String :=
  "\x7b\n  " ++ quoteString "user_id" ++ ": " ++ quoteString m.user_id
    ++ ",\n  " ++ quoteString "known_concepts" ++ ": "
    ++ stringifyConceptsPretty m.known_concepts ++ "\n\x7d"

/-- Failures surfaced by a capability invocation.  `invalidInput` is the
protocol layer rejecting an input that does not match the declared zod
shape; `mem` propagates a store failure rethrown by a handler;
`unknownCapability` is the dispatch failure for an unregistered name;
`upstreamError` is the throw on a non-ok transport response
(`src/src/tools/index.ts`, line 113) and `upstreamProtocolError` the throw
when no assistant message can be extracted (line 122). -/
inductive ToolErr where
  | invalidInput : ToolErr
  | mem : MemErr → ToolErr
  | unknownCapability : ToolErr
  | upstreamError : ToolErr
  | upstreamProtocolError : ToolErr
deriving Repr, DecidableEq

/-- The validated input of the `write_to_memory` tool. -/
structure WriteInput where
  concept : String
  known : Bool
deriving Repr, DecidableEq

/-- Validation of a raw input against the `write_to_memory` input shape
`\x7bconcept: z.string(), known: z.boolean()\x7d`
(`src/src/tools/index.ts`, lines 38-41).  `z.string()` has no `.min(1)`:
any string is accepted, the empty string included. -/
def parseWriteInput (j : Json) : Option WriteInput :=
  match j with
  | Json.obj fields =>
    match lookupField fields "concept", lookupField fields "known" with
    | some (Json.str c), some (Json.bool k) => some (WriteInput.mk c k)
    | _, _ => none
  | _ => none

/-- JS object lookup on the `known_concepts` record. -/
def lookupConcept : List (String × Bool) → String → Option Bool
  | [], _ => none
  | (c, k) :: rest, key => if c = key then some k else lookupConcept rest key

/-- The spread update `\x7b...kc, [concept]: known\x7d`
(`src/src/tools/index.ts`, lines 58-61): an existing key keeps its
position and gets the new value; a fresh key is appended at the end. -/
def setConcept : List (String × Bool) → String → Bool → List (String × Bool)
  | [], c, k => [(c, k)]
  | (c1, k1) :: rest, c, k =>
      if c1 = c then (c, k) :: rest else (c1, k1) :: setConcept rest c k

/-- Serialization of a typed document back to a JSON value; this is the
shape of the object literal the `write_to_memory` handler builds and
passes to `writeMemory`. -/
def memoryToJson (m : MemoryData) : Json :=
  Json.obj [("user_id", Json.str m.user_id),
            ("known_concepts",
              Json.obj (m.known_concepts.map (fun p => (p.1, Json.bool p.2))))]

/-- The `read_from_memory` tool handler (`src/src/tools/index.ts`,
lines 13-34): read the store, serialize the parsed document with
`JSON.stringify(memoryData, null, 2)`, rethrow store failures.  The
handler never writes, so the resulting store is the input store. -/
def readFromMemoryTool (store : Json) : Except ToolErr Json × Json :=
  match readMemory store with
  | Except.ok m => (Except.ok (Json.str (stringifyMemoryPretty m)), store)
  | Except.error e => (Except.error (ToolErr.mem e), store)

/-- The `css_knowledge_memory` resource handler
(`src/src/resources/index.ts`, lines 51-87): read the store, serialize the
parsed document with the compact `JSON.stringify(memoryData)`, rethrow
store failures.  Never writes. -/
def cssKnowledgeMemoryResource (store : Json) : Except ToolErr Json × Json :=
  match readMemory store with
  | Except.ok m => (Except.ok (Json.str (stringifyMemoryCompact m)), store)
  | Except.error e => (Except.error (ToolErr.mem e), store)

/-- The `write_to_memory` tool handler (`src/src/tools/index.ts`,
lines 37-77).  The protocol layer first validates the raw input against
the declared shape (`InvalidInput` on mismatch, per the specification of
the transport boundary); the handler then reads the current document,
overwrites `known_concepts[concept]` with `known` via object spread, and
writes the whole updated document back.  A failure at any step propagates
before `fs.writeFile` runs, leaving the store unchanged. -/
def writeToMemoryTool (rawInput : Json) (store : Json) :
    Except ToolErr Json × Json :=
  match parseWriteInput rawInput with
  | none => (Except.error ToolErr.invalidInput, store)
  | some inp =>
    match readMemory store with
    | Except.error e => (Except.error (ToolErr.mem e), store)
    | Except.ok m =>
      let updated : MemoryData :=
        MemoryData.mk m.user_id (setConcept m.known_concepts inp.concept inp.known)
      match writeMemory (memoryToJson updated) store with
      | Except.error e => (Except.error (ToolErr.mem e), store)
      | Except.ok newStore =>
        (Except.ok (Json.str ("Memory updated successfully for concept: "
            ++ inp.concept)), newStore)

/-- The upstream HTTP response observed by the `get_latest_updates`
handler: the transport success flag (`response.ok`) and the parsed JSON
body (`response.json()`). -/
structure UpstreamResponse where
  ok : Bool
  body : Json

/-- JS falsiness of a value, as tested by `if (!assistantMessage)`
(`src/src/tools/index.ts`, line 119): `null` (and the absent/`undefined`
case, handled separately), `false`, `0` and the empty string are falsy. -/
def isFalsy : Json → Bool
  | Json.null => true
  | Json.bool b => !b
  | Json.num n => n = 0
  | Json.str s => s = ""
  | _ => false

/-- The optional-chaining extraction
`data.choices?.[0]?.message?.content` (`src/src/tools/index.ts`,
line 117): `none` models `undefined` (some link absent or of the wrong
shape). -/
def extractContent (body : Json) : Option Json :=
  match body with
  | Json.obj fields =>
    match lookupField fields "choices" with
    | some (Json.arr (first :: _)) =>
      match first with
      | Json.obj mfields =>
        match lookupField mfields "message" with
        | some (Json.obj cfields) => lookupField cfields "content"
        | _ => none
      | _ => none
    | _ => none
  | _ => none

/-- The response-handling tail of the `get_latest_updates` handler
(`src/src/tools/index.ts`, lines 104-135), as a function of the observed
upstream response: a non-ok transport response throws (`UpstreamError`);
an extracted assistant message that is absent or falsy — the empty string
included — throws (`UpstreamProtocolError`); otherwise the extracted
value is returned verbatim as the text payload. -/
def getLatestUpdatesHandler (resp : UpstreamResponse) : Except ToolErr Json :=
  if !resp.ok then Except.error ToolErr.upstreamError
  else
    match extractContent resp.body with
    | none => Except.error ToolErr.upstreamProtocolError
    | some v =>
      if isFalsy v then Except.error ToolErr.upstreamProtocolError
      else Except.ok v

/-- The registration guard of `registerGetLatestUpdatesTool`
(`src/src/tools/index.ts`, lines 80-84): the tool is registered only when
`process.env.OPENROUTER_API_KEY` is set and non-empty (`!openRouterApiKey`
is true both for `undefined` and for the empty string). -/
def getLatestUpdatesRegistered (apiKey : Option String) : Bool :=
  match apiKey with
  | none => false
  | some k => !(k = "")

/-- The tool names registered by `registerTools`
(`src/src/tools/index.ts`, lines 141-145), in registration order:
`read_from_memory` and `write_to_memory` unconditionally, then
`get_latest_updates` when the credential guard passes. -/
def registeredTools (apiKey : Option String) : List String :=
  ["read_from_memory", "write_to_memory"]
    ++ (if getLatestUpdatesRegistered apiKey then ["get_latest_updates"] else [])

/-- Modelled from the spec: the by-name dispatch of the capability
registry (`invoke(name, rawInput)`) lives in the MCP server SDK, outside
this repository's sources.  Per the specification it fails with
`UnknownCapability` when no capability of that name is registered, and
otherwise calls the registered handler, propagating its result or failure
unchanged.  The handlers themselves and the registration condition are the
embeddings above of `src/src/tools/index.ts`. -/
def invokeTool (apiKey : Option String) (resp : UpstreamResponse)
    (name : String) (rawInput : Json) (store : Json) :
    Except ToolErr Json × Json :=
  if name ∈ registeredTools apiKey then
    if name = "read_from_memory" then readFromMemoryTool store
    else if name = "write_to_memory" then writeToMemoryTool rawInput store
    else (getLatestUpdatesHandler resp, store)
  else (Except.error ToolErr.unknownCapability, store)

/-- The store content after a `writeMemory` call, under the exception
semantics of the TypeScript code: a throw inside `writeMemory` happens
before `fs.writeFile`, so the file keeps its previous content; a
successful call has replaced the file with the serialization of the
argument. -/
def writeMemoryStoreAfter (newData : Json) (store : Json) : Json :=
  match writeMemory newData store with
  | Except.ok s => s
  | Except.error _ => store

/-! ### Helper lemmas -/

/-- Validating the serialized form of a typed `known_concepts` record
recovers the record. -/
theorem parseKnownConcepts_map (l : List (String × Bool)) :
    parseKnownConcepts (l.map (fun p => (p.1, Json.bool p.2))) = some l := by
  induction l with
  | nil => rfl
  | cons p rest ih =>
    obtain ⟨c, b⟩ := p
    simp [parseKnownConcepts, ih]

/-- Schema validation accepts the serialized form of every typed
document and returns exactly that document. -/
theorem memorySchemaParse_memoryToJson (m : MemoryData) :
    MemorySchemaParse (memoryToJson m) = some m := by
  simp [memoryToJson, MemorySchemaParse, lookupField, parseKnownConcepts_map]

/-- Reading a store that holds the serialized form of a typed document
succeeds with that document. -/
theorem readMemory_memoryToJson (m : MemoryData) :
    readMemory (memoryToJson m) = Except.ok m := by
  simp [readMemory, memorySchemaParse_memoryToJson]

/-- Writing the serialized form of a typed document always succeeds and
stores exactly that serialization. -/
theorem writeMemory_memoryToJson (m : MemoryData) (store : Json) :
    writeMemory (memoryToJson m) store = Except.ok (memoryToJson m) := by
  simp [writeMemory, memorySchemaParse_memoryToJson]

/-- The `write_to_memory` input shape accepts any pair of a string
`concept` and boolean `known`. -/
theorem parseWriteInput_mk (c : String) (k : Bool) :
    parseWriteInput (Json.obj [("concept", Json.str c), ("known", Json.bool k)])
      = some (WriteInput.mk c k) := by
  simp [parseWriteInput, lookupField]

/-- After a spread update, the updated concept maps to the new value. -/
theorem lookupConcept_setConcept_same (l : List (String × Bool)) (c : String) (k : Bool) :
    lookupConcept (setConcept l c k) c = some k := by
  induction l with
  | nil => simp [setConcept, lookupConcept]
  | cons p rest ih =>
    obtain ⟨c1, k1⟩ := p
    by_cases h : c1 = c
    · simp [setConcept, h, lookupConcept]
    · simp [setConcept, h, lookupConcept, ih]

/-- A spread update leaves every other concept's entry unchanged. -/
theorem lookupConcept_setConcept_other (l : List (String × Bool)) (c c2 : String)
    (k : Bool) (h : c2 ≠ c) :
    lookupConcept (setConcept l c k) c2 = lookupConcept l c2 := by
  induction l with
  | nil => simp [setConcept, lookupConcept, Ne.symm h]
  | cons p rest ih =>
    obtain ⟨c1, k1⟩ := p
    by_cases h1 : c1 = c
    · simp [setConcept, h1, lookupConcept, Ne.symm h]
    · simp [setConcept, h1, lookupConcept, ih]

/-! ### Claim theorems -/

/-- Claim C1, counterexample.  The claim states that invoking
`write_to_memory` with an empty `concept` fails with `InvalidInput` and
leaves the store untouched.  On the code the input shape is
`z.string()` with no non-emptiness refinement, so the empty concept
passes validation: the invocation succeeds with a confirmation message
and writes a document with an entry under the empty key, changing store
content. -/
theorem c1_empty_concept_write_succeeds :
    writeToMemoryTool
        (Json.obj [("concept", Json.str ""), ("known", Json.bool true)])
        (memoryToJson (MemoryData.mk "u1" [("Flexbox", true)]))
      = (Except.ok (Json.str "Memory updated successfully for concept: "),
         memoryToJson (MemoryData.mk "u1" [("Flexbox", true), ("", true)]))
    ∧ memoryToJson (MemoryData.mk "u1" [("Flexbox", true), ("", true)])
        ≠ memoryToJson (MemoryData.mk "u1" [("Flexbox", true)]) := by
  refine ⟨rfl, ?_⟩
  simp [memoryToJson]

/-- Claim C1, amended: invoking `write_to_memory` with an empty concept
name does not fail — the input schema only requires `concept` to be a
string — and the store is written with `known_concepts[""]` set to the
given flag, every prior entry kept. -/
theorem c1_amended_empty_concept_writes (store : Json) (m : MemoryData) (known : Bool)
    (hread : readMemory store = Except.ok m) :
    writeToMemoryTool
        (Json.obj [("concept", Json.str ""), ("known", Json.bool known)]) store
      = (Except.ok (Json.str "Memory updated successfully for concept: "),
         memoryToJson (MemoryData.mk m.user_id (setConcept m.known_concepts "" known))) := by
  simp [writeToMemoryTool, parseWriteInput_mk, hread, writeMemory_memoryToJson]

/-- Witness for the amended C1 at a concrete store. -/
theorem c1_amended_empty_concept_writes_witness :
    writeToMemoryTool
        (Json.obj [("concept", Json.str ""), ("known", Json.bool true)])
        (memoryToJson (MemoryData.mk "u1" []))
      = (Except.ok (Json.str "Memory updated successfully for concept: "),
         memoryToJson (MemoryData.mk "u1" [("", true)])) :=
  c1_amended_empty_concept_writes (memoryToJson (MemoryData.mk "u1" []))
    (MemoryData.mk "u1" []) true (by rfl)

/-- Claim C2, counterexample.  The claim states that the
`read_from_memory` tool payload and the `css_knowledge_memory` resource
payload are byte-identical for the same state.  On the code the tool
serializes with `JSON.stringify(data, null, 2)` and the resource with
`JSON.stringify(data)`: for the document `\x7buser_id: "u1",
known_concepts: \x7b\x7d\x7d` the two payloads differ byte-wise. -/
theorem c2_payloads_not_byte_identical :
    (readFromMemoryTool (memoryToJson (MemoryData.mk "u1" []))).1
      = Except.ok (Json.str "\x7b\n  \"user_id\": \"u1\",\n  \"known_concepts\": \x7b\x7d\n\x7d")
    ∧ (cssKnowledgeMemoryResource (memoryToJson (MemoryData.mk "u1" []))).1
      = Except.ok (Json.str "\x7b\"user_id\":\"u1\",\"known_concepts\":\x7b\x7d\x7d")
    ∧ ("\x7b\n  \"user_id\": \"u1\",\n  \"known_concepts\": \x7b\x7d\n\x7d" : String)
        ≠ "\x7b\"user_id\":\"u1\",\"known_concepts\":\x7b\x7d\x7d" := by
  refine ⟨rfl, rfl, ?_⟩
  decide

/-- Claim C2, amended: for the same store state the tool and the
resource serialize the same parsed document — so the payloads agree as
documents — but the tool uses two-space-indented pretty printing while
the resource emits compact JSON, and neither invocation writes. -/
theorem c2_amended_same_document_two_renderings (store : Json) (m : MemoryData)
    (hread : readMemory store = Except.ok m) :
    readFromMemoryTool store = (Except.ok (Json.str (stringifyMemoryPretty m)), store)
    ∧ cssKnowledgeMemoryResource store
      = (Except.ok (Json.str (stringifyMemoryCompact m)), store) := by
  simp [readFromMemoryTool, cssKnowledgeMemoryResource, hread]

/-- Witness for the amended C2 at a concrete store. -/
theorem c2_amended_same_document_two_renderings_witness :
    readFromMemoryTool (memoryToJson (MemoryData.mk "u1" [("Grid", false)]))
      = (Except.ok (Json.str (stringifyMemoryPretty (MemoryData.mk "u1" [("Grid", false)]))),
         memoryToJson (MemoryData.mk "u1" [("Grid", false)]))
    ∧ cssKnowledgeMemoryResource (memoryToJson (MemoryData.mk "u1" [("Grid", false)]))
      = (Except.ok (Json.str (stringifyMemoryCompact (MemoryData.mk "u1" [("Grid", false)]))),
         memoryToJson (MemoryData.mk "u1" [("Grid", false)])) :=
  c2_amended_same_document_two_renderings
    (memoryToJson (MemoryData.mk "u1" [("Grid", false)]))
    (MemoryData.mk "u1" [("Grid", false)]) (by rfl)

/-- Claim C5: reading a stored record that fails schema validation (for
example a non-boolean under `known_concepts`) fails with `CorruptState`,
and the `read_from_memory` invocation built on it surfaces that failure
with the store content unchanged (no write is performed). -/
theorem c5_corrupt_store_read_fails (store : Json)
    (h : MemorySchemaParse store = none) :
    readMemory store = Except.error MemErr.corruptState
    ∧ readFromMemoryTool store = (Except.error (ToolErr.mem MemErr.corruptState), store) := by
  constructor
  · simp [readMemory, h]
  · simp [readFromMemoryTool, readMemory, h]

/-- Witness for C5: a record with the number `1` instead of a boolean
under `known_concepts` is rejected as corrupt. -/
theorem c5_corrupt_store_read_fails_witness :
    readMemory (Json.obj [("user_id", Json.str "u1"),
        ("known_concepts", Json.obj [("Flexbox", Json.num 1)])])
      = Except.error MemErr.corruptState
    ∧ readFromMemoryTool (Json.obj [("user_id", Json.str "u1"),
        ("known_concepts", Json.obj [("Flexbox", Json.num 1)])])
      = (Except.error (ToolErr.mem MemErr.corruptState),
         Json.obj [("user_id", Json.str "u1"),
           ("known_concepts", Json.obj [("Flexbox", Json.num 1)])]) :=
  c5_corrupt_store_read_fails
    (Json.obj [("user_id", Json.str "u1"),
      ("known_concepts", Json.obj [("Flexbox", Json.num 1)])]) (by rfl)

/-- Claim C6: `writeMemory` validates its document before storage is
touched — a document failing validation yields `InvalidDocument` with
the stored record unchanged, and a document passing validation replaces
the stored record entirely with that document (no merge with the prior
value). -/
theorem c6_write_validates_before_storing (doc store : Json) :
    (MemorySchemaParse doc = none →
      writeMemory doc store = Except.error MemErr.invalidDocument
      ∧ writeMemoryStoreAfter doc store = store)
    ∧ (∀ m : MemoryData, MemorySchemaParse doc = some m →
      writeMemory doc store = Except.ok doc
      ∧ writeMemoryStoreAfter doc store = doc) := by
  constructor
  · intro h
    constructor
    · simp [writeMemory, h]
    · simp [writeMemoryStoreAfter, writeMemory, h]
  · intro m h
    constructor
    · simp [writeMemory, h]
    · simp [writeMemoryStoreAfter, writeMemory, h]

/-- Witness for C6: a non-object document is rejected with the store
kept; a valid document fully replaces the store. -/
theorem c6_write_validates_before_storing_witness :
    (writeMemory (Json.str "nope") (memoryToJson (MemoryData.mk "u1" []))
        = Except.error MemErr.invalidDocument
      ∧ writeMemoryStoreAfter (Json.str "nope") (memoryToJson (MemoryData.mk "u1" []))
        = memoryToJson (MemoryData.mk "u1" []))
    ∧ (writeMemory (memoryToJson (MemoryData.mk "u2" [("Grid", true)]))
          (memoryToJson (MemoryData.mk "u1" []))
        = Except.ok (memoryToJson (MemoryData.mk "u2" [("Grid", true)]))
      ∧ writeMemoryStoreAfter (memoryToJson (MemoryData.mk "u2" [("Grid", true)]))
          (memoryToJson (MemoryData.mk "u1" []))
        = memoryToJson (MemoryData.mk "u2" [("Grid", true)])) :=
  ⟨(c6_write_validates_before_storing (Json.str "nope")
      (memoryToJson (MemoryData.mk "u1" []))).1 (by rfl),
   (c6_write_validates_before_storing (memoryToJson (MemoryData.mk "u2" [("Grid", true)]))
      (memoryToJson (MemoryData.mk "u1" []))).2
      (MemoryData.mk "u2" [("Grid", true)]) (by rfl)⟩

/-- Claim C3: for every valid stored document and every pair of a
non-empty concept and a flag, invoking `write_to_memory` succeeds with a
confirmation referencing the concept, and the document then observed by
`read_from_memory` maps that concept to that flag — inserted if absent,
overwritten if present — while every other concept's entry and the owner
are unchanged. -/
theorem c3_write_then_read_updates_concept (store : Json) (m : MemoryData)
    (concept : String) (known : Bool)
    (hread : readMemory store = Except.ok m) (_hne : concept ≠ "") :
    ∃ (store2 : Json) (m2 : MemoryData),
      writeToMemoryTool
          (Json.obj [("concept", Json.str concept), ("known", Json.bool known)]) store
        = (Except.ok (Json.str ("Memory updated successfully for concept: " ++ concept)),
           store2)
      ∧ readMemory store2 = Except.ok m2
      ∧ readFromMemoryTool store2
        = (Except.ok (Json.str (stringifyMemoryPretty m2)), store2)
      ∧ lookupConcept m2.known_concepts concept = some known
      ∧ (∀ c, c ≠ concept →
          lookupConcept m2.known_concepts c = lookupConcept m.known_concepts c)
      ∧ m2.user_id = m.user_id := by
  refine ⟨memoryToJson (MemoryData.mk m.user_id (setConcept m.known_concepts concept known)),
    MemoryData.mk m.user_id (setConcept m.known_concepts concept known),
    ?_, readMemory_memoryToJson _, ?_, lookupConcept_setConcept_same _ _ _, ?_, rfl⟩
  · simp [writeToMemoryTool, parseWriteInput_mk, hread, writeMemory_memoryToJson]
  · simp [readFromMemoryTool, readMemory_memoryToJson]
  · intro c hc
    exact lookupConcept_setConcept_other _ _ _ _ hc

/-- Witness for C3: on the store holding `\x7bu1, \x7bGrid: false\x7d\x7d`,
writing `(Flexbox, true)` and reading back yields `Flexbox ↦ true` with
`Grid` untouched. -/
theorem c3_write_then_read_updates_concept_witness :
    ∃ (store2 : Json) (m2 : MemoryData),
      writeToMemoryTool
          (Json.obj [("concept", Json.str "Flexbox"), ("known", Json.bool true)])
          (memoryToJson (MemoryData.mk "u1" [("Grid", false)]))
        = (Except.ok (Json.str ("Memory updated successfully for concept: " ++ "Flexbox")),
           store2)
      ∧ readMemory store2 = Except.ok m2
      ∧ readFromMemoryTool store2
        = (Except.ok (Json.str (stringifyMemoryPretty m2)), store2)
      ∧ lookupConcept m2.known_concepts "Flexbox" = some true
      ∧ (∀ c, c ≠ "Flexbox" →
          lookupConcept m2.known_concepts c
            = lookupConcept (MemoryData.mk "u1" [("Grid", false)]).known_concepts c)
      ∧ m2.user_id = (MemoryData.mk "u1" [("Grid", false)]).user_id :=
  c3_write_then_read_updates_concept
    (memoryToJson (MemoryData.mk "u1" [("Grid", false)]))
    (MemoryData.mk "u1" [("Grid", false)]) "Flexbox" true (by rfl) (by decide)

/-- Claim C4: with the provider credential absent, `get_latest_updates`
is not registered — it is missing from the registered-capability list and
invoking its name fails with `UnknownCapability` while leaving the store
untouched — and the two memory capabilities still register, in
registration order, and dispatch to their handlers. -/
theorem c4_absent_credential_unregisters_external (resp : UpstreamResponse)
    (rawInput store : Json) :
    "get_latest_updates" ∉ registeredTools none
    ∧ invokeTool none resp "get_latest_updates" rawInput store
      = (Except.error ToolErr.unknownCapability, store)
    ∧ registeredTools none = ["read_from_memory", "write_to_memory"]
    ∧ invokeTool none resp "read_from_memory" rawInput store = readFromMemoryTool store
    ∧ invokeTool none resp "write_to_memory" rawInput store
      = writeToMemoryTool rawInput store := by
  refine ⟨?_, ?_, rfl, ?_, ?_⟩ <;>
    simp [invokeTool, registeredTools, getLatestUpdatesRegistered]

/-- Claim C7, counterexample.  The claim states that whenever the
`choices[0].message.content` field is present, the extracted text is
returned verbatim.  On the code the extracted value passes through the
falsiness test `if (!assistantMessage)`, so a present-but-empty content
string makes the invocation fail instead of returning the empty text. -/
theorem c7_present_but_empty_content_fails :
    extractContent (Json.obj [("choices", Json.arr [Json.obj [("message",
        Json.obj [("content", Json.str "")])]])]) = some (Json.str "")
    ∧ getLatestUpdatesHandler (UpstreamResponse.mk true (Json.obj [("choices",
        Json.arr [Json.obj [("message", Json.obj [("content", Json.str "")])]])]))
      = Except.error ToolErr.upstreamProtocolError :=
  ⟨rfl, rfl⟩

/-- Claim C7, amended: on a success transport response, a missing
`choices[0].message.content` makes the invocation fail with
`UpstreamProtocolError` rather than crash, and a present content that is
not falsy (in particular any non-empty string) is returned verbatim,
untruncated and unmodified; a present but falsy content — the empty
string included — also fails with `UpstreamProtocolError`. -/
theorem c7_amended_success_body_handling (resp : UpstreamResponse)
    (hok : resp.ok = true) :
    (extractContent resp.body = none →
      getLatestUpdatesHandler resp = Except.error ToolErr.upstreamProtocolError)
    ∧ (∀ v : Json, extractContent resp.body = some v → isFalsy v = false →
      getLatestUpdatesHandler resp = Except.ok v)
    ∧ (∀ v : Json, extractContent resp.body = some v → isFalsy v = true →
      getLatestUpdatesHandler resp = Except.error ToolErr.upstreamProtocolError) := by
  refine ⟨?_, ?_, ?_⟩
  · intro h
    simp [getLatestUpdatesHandler, hok, h]
  · intro v hv hf
    simp [getLatestUpdatesHandler, hok, hv, hf]
  · intro v hv hf
    simp [getLatestUpdatesHandler, hok, hv, hf]

/-- Witness for the amended C7: an empty body fails with the protocol
error; a body carrying the text "CSS news" returns it verbatim. -/
theorem c7_amended_success_body_handling_witness :
    getLatestUpdatesHandler (UpstreamResponse.mk true (Json.obj []))
      = Except.error ToolErr.upstreamProtocolError
    ∧ getLatestUpdatesHandler (UpstreamResponse.mk true (Json.obj [("choices",
        Json.arr [Json.obj [("message", Json.obj [("content", Json.str "CSS news")])]])]))
      = Except.ok (Json.str "CSS news") :=
  ⟨(c7_amended_success_body_handling (UpstreamResponse.mk true (Json.obj [])) rfl).1 rfl,
   (c7_amended_success_body_handling (UpstreamResponse.mk true (Json.obj [("choices",
      Json.arr [Json.obj [("message", Json.obj [("content", Json.str "CSS news")])]])]))
      rfl).2.1 (Json.str "CSS news") rfl rfl⟩

/-- Claim C8, counterexample.  The claim states that every document
accepted by schema validation has a non-empty `ownerId` and that a
document with an empty `ownerId` fails validation.  On the code the
schema field is `z.string()` with no non-emptiness refinement: a document
whose `user_id` is the empty string validates and is returned by
`readMemory` to the handlers. -/
theorem c8_empty_owner_passes_validation :
    MemorySchemaParse (memoryToJson (MemoryData.mk "" [("Flexbox", true)]))
      = some (MemoryData.mk "" [("Flexbox", true)])
    ∧ readMemory (memoryToJson (MemoryData.mk "" [("Flexbox", true)]))
      = Except.ok (MemoryData.mk "" [("Flexbox", true)]) :=
  ⟨rfl, rfl⟩

/-- Claim C8, amended: schema validation checks types only — a string
`user_id` and boolean concept flags; it does not require `user_id` to be
non-empty, so every type-correct document, one with an empty owner
included, validates and is observable to the capability handlers. -/
theorem c8_amended_validation_checks_types_only (uid : String)
    (kc : List (String × Bool)) :
    MemorySchemaParse (memoryToJson (MemoryData.mk uid kc)) = some (MemoryData.mk uid kc)
    ∧ readMemory (memoryToJson (MemoryData.mk uid kc)) = Except.ok (MemoryData.mk uid kc) :=
  ⟨memorySchemaParse_memoryToJson _, readMemory_memoryToJson _⟩

/-- Claim C9: a success response whose `choices[0].message.content` is
present but equal to the empty string makes `get_latest_updates` fail
with the same protocol error as a missing field, rather than returning
the empty text as a success. -/
theorem c9_empty_content_rejected (resp : UpstreamResponse)
    (hok : resp.ok = true)
    (h : extractContent resp.body = some (Json.str "")) :
    getLatestUpdatesHandler resp = Except.error ToolErr.upstreamProtocolError := by
  simp [getLatestUpdatesHandler, hok, h, isFalsy]

/-- Witness for C9 at a concrete response body. -/
theorem c9_empty_content_rejected_witness :
    getLatestUpdatesHandler (UpstreamResponse.mk true (Json.obj [("choices",
        Json.arr [Json.obj [("message", Json.obj [("content", Json.str "")])]])]))
      = Except.error ToolErr.upstreamProtocolError :=
  c9_empty_content_rejected (UpstreamResponse.mk true (Json.obj [("choices",
    Json.arr [Json.obj [("message", Json.obj [("content", Json.str "")])]])])) rfl rfl

/-- Claim C10: every successful `write_to_memory` invocation preserves
the `user_id` of the stored document — the document written differs from
the document read only in its `known_concepts` mapping, which receives
exactly the spread update for the validated input. -/
theorem c10_owner_preserved_on_successful_write (rawInput store : Json)
    (m : MemoryData) (payload : Json) (store2 : Json)
    (hread : readMemory store = Except.ok m)
    (hw : writeToMemoryTool rawInput store = (Except.ok payload, store2)) :
    ∃ m2 : MemoryData, readMemory store2 = Except.ok m2
      ∧ m2.user_id = m.user_id
      ∧ ∃ inp : WriteInput, parseWriteInput rawInput = some inp
        ∧ m2.known_concepts = setConcept m.known_concepts inp.concept inp.known := by
  cases hp : parseWriteInput rawInput with
  | none =>
    simp [writeToMemoryTool, hp] at hw
  | some inp =>
    simp only [writeToMemoryTool, hp, hread, writeMemory_memoryToJson] at hw
    obtain ⟨-, h2⟩ := Prod.mk.injEq .. ▸ hw
    refine ⟨MemoryData.mk m.user_id (setConcept m.known_concepts inp.concept inp.known),
      ?_, rfl, inp, rfl, rfl⟩
    rw [← h2]
    exact readMemory_memoryToJson _

/-- Witness for C10: writing `(Flexbox, true)` over the store
`\x7bu1, \x7b\x7d\x7d` keeps `user_id = "u1"`. -/
theorem c10_owner_preserved_on_successful_write_witness :
    ∃ m2 : MemoryData,
      readMemory (memoryToJson (MemoryData.mk "u1" [("Flexbox", true)])) = Except.ok m2
      ∧ m2.user_id = (MemoryData.mk "u1" ([] : List (String × Bool))).user_id
      ∧ ∃ inp : WriteInput,
        parseWriteInput (Json.obj [("concept", Json.str "Flexbox"), ("known", Json.bool true)])
          = some inp
        ∧ m2.known_concepts
          = setConcept (MemoryData.mk "u1" ([] : List (String × Bool))).known_concepts
              inp.concept inp.known :=
  c10_owner_preserved_on_successful_write
    (Json.obj [("concept", Json.str "Flexbox"), ("known", Json.bool true)])
    (memoryToJson (MemoryData.mk "u1" []))
    (MemoryData.mk "u1" [])
    (Json.str "Memory updated successfully for concept: Flexbox")
    (memoryToJson (MemoryData.mk "u1" [("Flexbox", true)]))
    (by rfl) (by rfl)

end CssMcp
